import Mathlib

/-
Shallow embedding of the build-automation orchestrator of this repository
(src/build_automation.py, class BuildAutomation), together with the data
model it uses (src/models.py, dataclass BuildInstructions).

Python strings are modelled as Lean `String`/`List Char`; the repository
checkout is modelled as a `RepoFS` record giving the recursive file-name
listing (for `Path.rglob`), root-level file presence (`os.path.exists`),
root-level file reads (`open`, which may raise) and the two external
parsers the analyzers call (`json.load`, `toml.load`), each of which may
raise.  A raised Python exception is modelled as the `Except.error` case;
`subprocess.run(..., check=True)` failures are modelled through a `World`
oracle deciding, for each spawned process, whether it exits zero.
-/

/-! ## Python string primitives -/

/-- Characters stripped by Python `str.strip()` (whitespace). -/
def pyIsSpace (c : Char) : Bool :=
  c == ' ' || c == '\t' || c == '\n' || c == '\r' || c == '\x0b' || c == '\x0c'

/-- Python `str.strip()` on a character list. -/
def pyStrip (s : List Char) : List Char :=
  ((s.dropWhile pyIsSpace).reverse.dropWhile pyIsSpace).reverse

/-- Helper for `pySplitlines`: split on newline characters, keeping a
trailing empty piece for a trailing newline (removed by `pySplitlines`). -/
def pySplitAux : List Char → List Char → List (List Char)
  | [], acc => [acc.reverse]
  | '\n' :: rest, acc => acc.reverse :: pySplitAux rest []
  | c :: rest, acc => pySplitAux rest (c :: acc)

/-- Python `str.splitlines()` (newline-only, as in the manifests at hand):
splits on `'\n'` and, unlike a plain split, produces no final empty piece
for a string that ends in a newline; the empty string yields `[]`. -/
def pySplitlines (s : List Char) : List (List Char) :=
  match s with
  | [] => []
  | _ =>
    let parts := pySplitAux s []
    if s.getLast? = some '\n' then parts.dropLast else parts

/-- Python `d.replace('==', '>=')` (src/build_automation.py line 358):
left-to-right scan replacing each non-overlapping occurrence of `"=="`. -/
def relaxL : List Char → List Char
  | [] => []
  | [c] => [c]
  | c :: d :: rest =>
    if c = '=' ∧ d = '=' then '>' :: '=' :: relaxL rest
    else c :: relaxL (d :: rest)

/-- `d.replace('==', '>=')` on a `String`. -/
def relaxDep (d : String) : String := ⟨relaxL d.data⟩

/-- Python `str.lower()`. -/
def pyLower (s : String) : String := ⟨s.data.map Char.toLower⟩

/-- Splits a character list at the FIRST occurrence of `pat`, returning the
part before and the part after the occurrence; `none` when `pat` does not
occur.  `(findSplit p s).isSome` models Python `p in s`, and the returned
parts model the pieces around the first separator of `s.split(p)`. -/
def findSplit (pat : List Char) : List Char → Option (List Char × List Char)
  | [] => if pat.isPrefixOf ([] : List Char) then some ([], []) else none
  | c :: cs =>
    if pat.isPrefixOf (c :: cs) then some ([], (c :: cs).drop pat.length)
    else
      match findSplit pat cs with
      | some (pre, post) => some (c :: pre, post)
      | none => none

/-- The separator `'require ('` of `_analyze_go_dependencies` (line 285). -/
def reqPatL : List Char := "require (".data

/-! ## Repository checkout model -/

/-- Result of `json.load` on `package.json`, as consumed by
`_analyze_javascript_dependencies`: `data.get('dependencies', {})` and
`data.get('devDependencies', {})`, in declaration order. -/
structure JsonPkg where
  dependencies : List (String × String)
  devDependencies : List (String × String)

/-- A value of the `[dependencies]` table of `Cargo.toml`: a version
string, a table possibly carrying a `version` key, or something else
(which `_analyze_rust_dependencies` silently skips). -/
inductive CargoDepVal
  | str (v : String)
  | table (version : Option String)
  | other

/-- Result of `toml.load` on `Cargo.toml`. -/
structure CargoToml where
  dependencies : Option (List (String × CargoDepVal))

/-- A local repository checkout, as the detection and analysis code sees
it.  `allNames` lists the names of every entry in the tree (recursively,
for `Path(repo_path).rglob`); `rootExists` is `os.path.exists` at the
repository root; `rootRead` reads a root-level file (raising = `error`);
`parseJson`/`parseToml` model `json.load`/`toml.load` (raising = `error`). -/
structure RepoFS where
  allNames : List String
  rootExists : String → Bool
  rootRead : String → Except String String
  parseJson : String → Except String JsonPkg
  parseToml : String → Except String CargoToml

/-! ## Language detection (`_detect_primary_language`, lines 123-143) -/

/-- `Path.rglob` pattern match on an entry name: a pattern starting with
`'*'` matches by suffix (all table patterns are of the form `*.ext`),
otherwise the name must match exactly. -/
def patMatch (pat name : String) : Bool :=
  match pat.data with
  | '*' :: rest => rest.isSuffixOf name.data
  | _ => pat == name

/-- The fixed language table of `_detect_primary_language` (lines 125-132),
in source (dict-insertion) order. -/
def language_patterns : List (String × List String) :=
  [("python", ["*.py", "requirements.txt", "setup.py", "pyproject.toml"]),
   ("javascript", ["*.js", "package.json"]),
   ("typescript", ["*.ts", "tsconfig.json"]),
   ("java", ["*.java", "pom.xml", "build.gradle"]),
   ("go", ["*.go", "go.mod"]),
   ("rust", ["*.rs", "Cargo.toml"])]

/-- Per-language count: the sum, over the language's patterns, of the
number of tree entries matching the pattern (an entry matching two
patterns is counted twice, as in the source's per-pattern loop). -/
def countLang (fs : RepoFS) (pats : List String) : Nat :=
  pats.foldl (fun acc p => acc + (fs.allNames.filter (fun n => patMatch p n)).length) 0

/-- The `counts` dict of line 135-140, in table order. -/
def langCounts (fs : RepoFS) : List (String × Nat) :=
  language_patterns.map (fun lp => (lp.1, countLang fs lp.2))

/-- Python `max(items, key=lambda x: x[1])`: fold keeping the current
maximum, replacing it only on a strictly greater key, so the first
maximal element wins. -/
def pyMax : (String × Nat) → List (String × Nat) → (String × Nat)
  | b, [] => b
  | b, x :: xs => pyMax (if x.2 > b.2 then x else b) xs

/-- `_detect_primary_language` (line 143): `max(counts.items(), ...)[0]`.
The `[]` case is unreachable (the table is a fixed non-empty literal;
Python `max` would raise on an empty dict). -/
def detect_primary_language (fs : RepoFS) : String :=
  match langCounts fs with
  | [] => ""
  | c :: rest => (pyMax c rest).1

/-! ## Build-system detection (`_detect_build_system`, lines 145-174) -/

/-- The fixed marker-file table of lines 147-167, in source order.  Note
there is no row for `typescript` and none for `unknown`. -/
def build_systems : List (String × List (String × String)) :=
  [("python", [("setup.py", "setuptools"), ("pyproject.toml", "poetry"),
               ("requirements.txt", "pip")]),
   ("javascript", [("package.json", "npm"), ("yarn.lock", "yarn")]),
   ("java", [("pom.xml", "maven"), ("build.gradle", "gradle")]),
   ("go", [("go.mod", "go")]),
   ("rust", [("Cargo.toml", "cargo")])]

/-- Association-list lookup, modelling `language in build_systems` plus
`build_systems[language]`. -/
def assocLookup {α : Type} (k : String) : List (String × α) → Option α
  | [] => none
  | (k', v) :: rest => if k' = k then some v else assocLookup k rest

/-- The marker loop of lines 170-172: return the system of the first
marker file present at the root; fall through to `'unknown'`. -/
def firstHit (fs : RepoFS) : List (String × String) → String
  | [] => "unknown"
  | (f, sys) :: rest => if fs.rootExists f then sys else firstHit fs rest

/-- `_detect_build_system` (lines 145-174). -/
def detect_build_system (fs : RepoFS) (language : String) : String :=
  match assocLookup language build_systems with
  | some rows => firstHit fs rows
  | none => "unknown"

/-! ## Dependency analysis (lines 176-189 and 226-317, 434-436) -/

/-- Lines of `requirements.txt`: `line.strip() for line in f if line.strip()`. -/
def requirementsDeps (content : String) : List String :=
  (((pySplitlines content.data).map pyStrip).filter (fun l => l ≠ [])).map
    (fun l => (⟨l⟩ : String))

/-- Body of `_analyze_python_dependencies` (lines 230-247) up to its
`except` clause: read `requirements.txt` if present, then read `setup.py`
if present (its `install_requires` scan extracts nothing). -/
def analyze_python_body (fs : RepoFS) : Except String (List String) := do
  let deps ←
    if fs.rootExists "requirements.txt" then do
      let content ← fs.rootRead "requirements.txt"
      pure (requirementsDeps content)
    else pure []
  if fs.rootExists "setup.py" then do
    let _ ← fs.rootRead "setup.py"
    pure deps
  else pure deps

/-- Body of `_analyze_javascript_dependencies` (lines 257-268) up to its
`except` clause: `name@version` for every runtime dependency in
declaration order, then every dev dependency. -/
def analyze_javascript_body (fs : RepoFS) : Except String (List String) :=
  if fs.rootExists "package.json" then do
    let content ← fs.rootRead "package.json"
    let pkg ← fs.parseJson content
    pure ((pkg.dependencies.map (fun nv => nv.1 ++ "@" ++ nv.2)) ++
          (pkg.devDependencies.map (fun nv => nv.1 ++ "@" ++ nv.2)))
  else pure []

/-- Second half of `content.split('require (')[1]`: given everything
after the first separator occurrence, cut at the next occurrence (Python
split pieces end at the following separator) or keep it all. -/
def goSegment (post : List Char) : List Char :=
  match findSplit reqPatL post with
  | some (pre2, _) => pre2
  | none => post

/-- The stripped non-blank lines of a block, one dependency per line. -/
def goLines (blk : List Char) : List String :=
  (((pySplitlines blk).map pyStrip).filter (fun l => l ≠ [])).map
    (fun l => (⟨l⟩ : String))

/-- The `require (` block extraction of `_analyze_go_dependencies`
(lines 283-289): `content.split('require (')[1]` is the segment between
the first separator occurrence and the next one (or the end), then
`.split(')')[0]` cuts at the first `')'`; each stripped non-blank line of
the result is one dependency. -/
def goDepsOfContent (content : String) : List String :=
  match findSplit reqPatL content.data with
  | none => []
  | some (_, post) => goLines ((goSegment post).takeWhile (fun c => c != ')'))

/-- Body of `_analyze_go_dependencies` (lines 278-291) up to its `except`. -/
def analyze_go_body (fs : RepoFS) : Except String (List String) :=
  if fs.rootExists "go.mod" then do
    let content ← fs.rootRead "go.mod"
    pure (goDepsOfContent content)
  else pure []

/-- One entry of the Cargo `dependencies` table (lines 307-311):
`f"{name} = {version}"`, defaulting a table entry's missing version to
`'*'`; a value of any other shape is skipped. -/
def cargoDepStr : String × CargoDepVal → List String
  | (n, .str v) => [n ++ " = " ++ v]
  | (n, .table (some v)) => [n ++ " = " ++ v]
  | (n, .table none) => [n ++ " = *"]
  | (_, .other) => []

/-- Body of `_analyze_rust_dependencies` (lines 301-313) up to its `except`. -/
def analyze_rust_body (fs : RepoFS) : Except String (List String) :=
  if fs.rootExists "Cargo.toml" then do
    let content ← fs.rootRead "Cargo.toml"
    let t ← fs.parseToml content
    pure
      (match t.dependencies with
       | some deps => (deps.map cargoDepStr).flatten
       | none => [])
  else pure []

/-- The `except Exception: return []` boundary each analyzer wraps its
body in (lines 249-251, 270-272, 293-295, 315-317). -/
def catchAll (r : Except String (List String)) : List String :=
  match r with
  | .ok l => l
  | .error _ => []

/-- `_analyze_python_dependencies` (lines 226-251). -/
def analyze_python_dependencies (fs : RepoFS) : List String :=
  catchAll (analyze_python_body fs)

/-- `_analyze_javascript_dependencies` (lines 253-272). -/
def analyze_javascript_dependencies (fs : RepoFS) : List String :=
  catchAll (analyze_javascript_body fs)

/-- `_analyze_go_dependencies` (lines 274-295). -/
def analyze_go_dependencies (fs : RepoFS) : List String :=
  catchAll (analyze_go_body fs)

/-- `_analyze_rust_dependencies` (lines 297-317). -/
def analyze_rust_dependencies (fs : RepoFS) : List String :=
  catchAll (analyze_rust_body fs)

/-- The un-caught body of the analyzer registered for a language, where
one exists: `none` for `java` (whose analyzer is the bodyless stub
`_analyze_java_dependencies`, lines 434-436) and for languages with no
registered analyzer. -/
def analyzeBodyOpt (fs : RepoFS) (lang : String) :
    Option (Except String (List String)) :=
  if lang = "python" then some (analyze_python_body fs)
  else if lang = "javascript" then some (analyze_javascript_body fs)
  else if lang = "go" then some (analyze_go_body fs)
  else if lang = "rust" then some (analyze_rust_body fs)
  else none

/-- `_analyze_dependencies` (lines 176-189).  The result is the Python
return value: `none` models the `None` that the `pass`-bodied java
analyzer returns, `some []` the explicit `return []` for a language with
no registered analyzer. -/
def analyze_dependencies (fs : RepoFS) (language : String) : Option (List String) :=
  if language = "python" then some (analyze_python_dependencies fs)
  else if language = "javascript" then some (analyze_javascript_dependencies fs)
  else if language = "java" then none
  else if language = "go" then some (analyze_go_dependencies fs)
  else if language = "rust" then some (analyze_rust_dependencies fs)
  else some []

/-! ## Build instructions (src/models.py) and retry synthesis -/

/-- The `BuildInstructions` dataclass of src/models.py. -/
structure BuildInstructions where
  language : String
  build_system : String
  dependencies : List String
  setup_steps : List String
  build_commands : List String
  test_commands : List String
deriving DecidableEq

/-- `_modify_build_instructions` (lines 345-390): re-detect, relax every
`==` pin to `>=`, force `test_commands` empty; any exception in the body
(for a java repository the dependency list is `None` and the list
comprehension raises `TypeError`) is re-raised as `BuildError`. -/
def modify_build_instructions (fs : RepoFS) : Except String BuildInstructions :=
  match analyze_dependencies fs (detect_primary_language fs) with
  | none => .error "Could not modify build instructions"
  | some deps =>
    .ok
      { language := detect_primary_language fs
        build_system := detect_build_system fs (detect_primary_language fs)
        dependencies := deps.map relaxDep
        setup_steps := ["Clean build artifacts", "Update package manager",
                        "Install dependencies with relaxed constraints"]
        build_commands :=
          if detect_primary_language fs = "python" then
            ["pip install --upgrade pip", "pip install -r requirements.txt --upgrade"]
          else if detect_primary_language fs = "javascript"
              ∨ detect_primary_language fs = "typescript" then
            ["npm cache clean --force", "npm install --no-package-lock"]
          else []
        test_commands := [] }

/-! ## Build execution (`execute_build`, `_setup_environment`, the
per-language handlers and `_handle_build_failure`, lines 105-121, 192-223,
319-343, 392-432) -/

/-- `subprocess.CalledProcessError`: the failed command and its exit
status. -/
structure CPE where
  cmd : String
  returncode : Int
deriving DecidableEq

/-- A raised exception as `execute_build` distinguishes them: a
`subprocess.CalledProcessError` (the only class its `except` clause
catches) or a `BuildError` carrying a message. -/
inductive PyErr
  | procError (e : CPE)
  | buildError (msg : String)
deriving DecidableEq

/-- A Python value a build handler can return: the implemented handlers
return `True`/`False`, the `pass`-bodied stubs return `None`. -/
inductive PyVal
  | pyNone
  | pyBool (b : Bool)
deriving DecidableEq

/-- A handler invocation either returns a value or raises. -/
inductive HRes
  | ret (v : PyVal)
  | raise (e : PyErr)
deriving DecidableEq

/-- An external process spawned during a build, labelled by what the code
runs: `python -m venv`, a pip command, `npm install`, or a generic build
command run in the repository root. -/
inductive Cmd
  | pythonVenv
  | pip (args : String)
  | npmInstall
  | run (args : String)
deriving DecidableEq

/-- Mutable pipeline state: whether the `.venv` directory and the
`node_modules` directory exist under the checkout, the sequence of
processes spawned so far, and a ghost counter of build-handler
invocations (execution attempts). -/
structure St where
  venv : Bool
  nodeModules : Bool
  spawned : List Cmd
  attempts : Nat
deriving DecidableEq

/-- External world: decides whether the k-th spawned process of the run
exits zero. -/
structure World where
  procOk : Nat → Bool

def isVenvCmd : Cmd → Bool
  | .pythonVenv => true
  | _ => false

def isNpmInstallCmd : Cmd → Bool
  | .npmInstall => true
  | _ => false

/-- `subprocess.run(...)`: spawn a process, record it, and update the
directories a successful creation command brings into existence.  The
returned `Bool` is whether the process exited zero (`check=True` raises
`CalledProcessError` otherwise; the caller decides what that raise hits). -/
def spawn (w : World) (c : Cmd) (s : St) : Bool × St :=
  let ok := w.procOk s.spawned.length
  (ok,
   { venv := s.venv || (isVenvCmd c && ok)
     nodeModules := s.nodeModules || (isNpmInstallCmd c && ok)
     spawned := s.spawned ++ [c]
     attempts := s.attempts })

/-- `_setup_environment` (lines 392-408): for Python create `.venv` only
if absent, for JavaScript/TypeScript run `npm install` only if
`node_modules` is absent, otherwise do nothing; any exception in the body
is re-raised as `BuildError` (so a failing creation process surfaces as
`BuildError`, not as `CalledProcessError`). -/
def setup_environment (w : World) (instr : BuildInstructions) (s : St) :
    Option PyErr × St :=
  if pyLower instr.language = "python" then
    if s.venv then (none, s)
    else
      let r := spawn w Cmd.pythonVenv s
      if r.1 then (none, r.2)
      else (some (.buildError "Failed to setup environment"), r.2)
  else if pyLower instr.language = "javascript" ∨ pyLower instr.language = "typescript" then
    if s.nodeModules then (none, s)
    else
      let r := spawn w Cmd.npmInstall s
      if r.1 then (none, r.2)
      else (some (.buildError "Failed to setup environment"), r.2)
  else (none, s)

/-- The pip loop of `_handle_python_build` (lines 201-202): run
`[pip] + cmd.split()` for each build command, stopping at the first
failure (the raised `CalledProcessError` is caught by the handler's own
`except`, which returns `False`). -/
def pipLoop (w : World) : List String → St → HRes × St
  | [], s => (.ret (.pyBool true), s)
  | c :: cs, s =>
    let r := spawn w (Cmd.pip c) s
    if r.1 then pipLoop w cs r.2 else (.ret (.pyBool false), r.2)

/-- The command loop of `_handle_javascript_build` (lines 216-217). -/
def runLoop (w : World) : List String → St → HRes × St
  | [], s => (.ret (.pyBool true), s)
  | c :: cs, s =>
    let r := spawn w (Cmd.run c) s
    if r.1 then runLoop w cs r.2 else (.ret (.pyBool false), r.2)

/-- A build handler: given the world, instructions and state, returns a
Python value or raises. -/
def Handler : Type := World → BuildInstructions → St → HRes × St

/-- A handler registry keyed by (lowercased) language name, modelling the
`self.build_handlers` dict. -/
def Registry : Type := String → Option Handler

/-- `_handle_python_build` (lines 192-207): unconditionally re-run venv
creation, then the pip commands; a `CalledProcessError` anywhere in the
body is caught and turned into `return False`. -/
def handle_python_build : Handler := fun w instr s =>
  let r := spawn w Cmd.pythonVenv s
  if r.1 then pipLoop w instr.build_commands r.2
  else (.ret (.pyBool false), r.2)

/-- `_handle_javascript_build` (lines 209-223): `npm install`, then each
build command; a `CalledProcessError` is caught and becomes `False`. -/
def handle_javascript_build : Handler := fun w instr s =>
  let r := spawn w Cmd.npmInstall s
  if r.1 then runLoop w instr.build_commands r.2
  else (.ret (.pyBool false), r.2)

/-- `_handle_java_build` (lines 410-412): a bodyless stub returning `None`. -/
def handle_java_build : Handler := fun _ _ s => (.ret .pyNone, s)

/-- `_handle_go_build` (lines 414-416): a bodyless stub returning `None`. -/
def handle_go_build : Handler := fun _ _ s => (.ret .pyNone, s)

/-- `_handle_rust_build` (lines 418-420): a bodyless stub returning `None`. -/
def handle_rust_build : Handler := fun _ _ s => (.ret .pyNone, s)

/-- The `self.build_handlers` registry of `__init__` (lines 34-41). -/
def build_handlers : Registry := fun lang =>
  if lang = "python" then some handle_python_build
  else if lang = "javascript" then some handle_javascript_build
  else if lang = "typescript" then some handle_javascript_build
  else if lang = "java" then some handle_java_build
  else if lang = "go" then some handle_go_build
  else if lang = "rust" then some handle_rust_build
  else none

/-- `_clean_build_artifacts` (lines 333-343): best-effort removal of the
well-known artifact directories at the root; of the modelled state this
removes `node_modules` (`.venv` is NOT in the cleaned list, so the venv
survives a cleanup). -/
def cleanArtifacts (s : St) : St :=
  { s with nodeModules := false }

/-- `execute_build` (lines 105-121) together with `_handle_build_failure`
(lines 319-331), parameterised over the handler registry so that both the
repository's own registry and a stub executor can be plugged in.

The body mirrors the source exactly: run `_setup_environment` (whose
`BuildError` propagates, since the `except` clause catches only
`CalledProcessError`); look up the handler, raising
`BuildError('Unsupported language: ...')` when there is none (again not
caught); run the handler; a `CalledProcessError` raised by the handler is
caught and routed into `_handle_build_failure`, which cleans artifacts,
synthesizes modified instructions and RE-ENTERS `execute_build`, any
exception in that retry being swallowed into `return False`.

`fuel` bounds the recursion depth of that re-entry (Python itself has no
such bound short of the interpreter's recursion limit); exhausted fuel is
reported as a distinguished error so it can never be mistaken for a
source-level outcome. -/
def execute_build (w : World) (fs : RepoFS) (reg : Registry) :
    Nat → BuildInstructions → St → Except PyErr PyVal × St
  | 0, _, s => (.error (.buildError "model: recursion fuel exhausted"), s)
  | fuel + 1, instr, s =>
    match setup_environment w instr s with
    | (some e, s1) => (.error e, s1)
    | (none, s1) =>
      match reg (pyLower instr.language) with
      | none => (.error (.buildError ("Unsupported language: " ++ instr.language)), s1)
      | some h =>
        let s2 := { s1 with attempts := s1.attempts + 1 }
        match h w instr s2 with
        | (.ret v, s3) => (.ok v, s3)
        | (.raise (.procError _), s3) =>
          let s4 := cleanArtifacts s3
          match modify_build_instructions fs with
          | .error _ => (.ok (.pyBool false), s4)
          | .ok instr2 =>
            match execute_build w fs reg fuel instr2 s4 with
            | (.ok v, s5) => (.ok v, s5)
            | (.error _, s5) => (.ok (.pyBool false), s5)
        | (.raise e, s3) => (.error e, s3)

/-! ## Concrete fixtures used by the theorems below -/

/-- A world in which every spawned process exits zero. -/
def wAllOk : World := ⟨fun _ => true⟩

/-- An empty checkout: no entries at all. -/
def emptyFS : RepoFS :=
  { allNames := []
    rootExists := fun _ => false
    rootRead := fun _ => .error "No such file or directory"
    parseJson := fun _ => .error "Expecting value"
    parseToml := fun _ => .error "empty" }

/-- A minimal Python checkout: a single readable `requirements.txt`
pinning `requests==2.0`. -/
def pyRepo : RepoFS :=
  { allNames := ["requirements.txt"]
    rootExists := fun n => n == "requirements.txt"
    rootRead := fun n =>
      if n == "requirements.txt" then .ok "requests==2.0\n"
      else .error "No such file or directory"
    parseJson := fun _ => .error "Expecting value"
    parseToml := fun _ => .error "empty" }

/-- The Go checkout of the spec's scenario: only `go.mod` and a `*.go`
file, `go.mod` holding one `require ( ... )` block. -/
def goRepo : RepoFS :=
  { allNames := ["go.mod", "main.go"]
    rootExists := fun n => n == "go.mod" || n == "main.go"
    rootRead := fun n =>
      if n == "go.mod" then
        .ok "module example.com/m\n\nrequire (\n\tgithub.com/x/y v1.0.0\n)\n"
      else .error "No such file or directory"
    parseJson := fun _ => .error "Expecting value"
    parseToml := fun _ => .error "empty" }

/-- A JavaScript/TypeScript checkout whose `package.json` declares one
runtime and one dev dependency. -/
def jsRepo : RepoFS :=
  { allNames := ["package.json", "index.ts"]
    rootExists := fun n => n == "package.json"
    rootRead := fun n =>
      if n == "package.json" then .ok "json text declaring left-pad 1.0.0 and dev jest 29.0.0"
      else .error "No such file or directory"
    parseJson := fun _ => .ok ⟨[("left-pad", "1.0.0")], [("jest", "29.0.0")]⟩
    parseToml := fun _ => .error "empty" }

/-- A checkout with a truncated `package.json` on which `json.load`
raises. -/
def badJsonRepo : RepoFS :=
  { allNames := ["package.json", "app.js"]
    rootExists := fun n => n == "package.json"
    rootRead := fun n =>
      if n == "package.json" then .ok "truncated json text: dependencies: left-"
      else .error "No such file or directory"
    parseJson := fun _ => .error "Expecting value: line 1 column 25"
    parseToml := fun _ => .error "empty" }

/-- Instructions for a Python build with one pip command, as the pipeline
produces for `pyRepo`. -/
def instrPy : BuildInstructions :=
  { language := "python"
    build_system := "pip"
    dependencies := ["requests==2.0"]
    setup_steps := []
    build_commands := ["install -r requirements.txt"]
    test_commands := [] }

/-- Instructions naming a language with no registered handler. -/
def instrRuby : BuildInstructions :=
  { language := "Ruby"
    build_system := "bundler"
    dependencies := []
    setup_steps := []
    build_commands := ["bundle install"]
    test_commands := [] }

/-- The pristine starting state: no environment directories, nothing
spawned. -/
def st0 : St := { venv := false, nodeModules := false, spawned := [], attempts := 0 }

/-- A stub executor that always reports failure by raising
`CalledProcessError`, as in the spec's "BuildExecutor stub that always
reports Failure" testable property. -/
def alwaysFailHandler : Handler := fun _ _ s =>
  (.raise (.procError ⟨"pip install -r requirements.txt", 1⟩), s)

/-- A registry dispatching every language to `alwaysFailHandler`. -/
def alwaysFailReg : Registry := fun _ => some alwaysFailHandler

/-- A stub executor raising the given `CalledProcessError` on the first
execution attempt and returning `False` on every later one: "the single
retry fails". -/
def failThenFalse (e : CPE) : Registry := fun _ =>
  some (fun _ _ s =>
    if s.attempts = 1 then (.raise (.procError e), s)
    else (.ret (.pyBool false), s))

/-! ## Spec-side definitions (following the spec's words, for comparison
with the source translations above) -/

/-- The maximum match count of a counts table. -/
def maxVal : List (String × Nat) → Nat
  | [] => 0
  | x :: xs => max x.2 (maxVal xs)

/-- The first entry of a counts table attaining a given value: the spec's
"ties are broken by table order (first-declared language wins)". -/
def firstAttain (m : Nat) : List (String × Nat) → Option (String × Nat)
  | [] => none
  | x :: xs => if x.2 = m then some x else firstAttain m xs

/-- Modelled from the spec: `BuildSystemDetector` "returns the build-system
name for the first marker file found present at the root, in table order.
Returns `unknown` if no marker matches or the language itself is
`unknown`." -/
def buildSystemSpec (fs : RepoFS) (language : String) : String :=
  match assocLookup language build_systems with
  | none => "unknown"
  | some rows =>
    match rows.find? (fun p => fs.rootExists p.1) with
    | some p => p.2
    | none => "unknown"

/-- The retry instructions `_modify_build_instructions` synthesizes for
`pyRepo`. -/
def instrRelaxed : BuildInstructions :=
  { language := "python"
    build_system := "pip"
    dependencies := ["requests>=2.0"]
    setup_steps := ["Clean build artifacts", "Update package manager",
                    "Install dependencies with relaxed constraints"]
    build_commands := ["pip install --upgrade pip",
                       "pip install -r requirements.txt --upgrade"]
    test_commands := [] }

/-! ## Helper lemmas -/

/-- Python `max` returns the first element attaining the maximum value. -/
theorem pyMax_firstAttain :
    ∀ (xs : List (String × Nat)) (b : String × Nat),
      firstAttain (maxVal (b :: xs)) (b :: xs) = some (pyMax b xs) := by
  intro xs
  induction xs with
  | nil =>
    intro b
    simp [maxVal, firstAttain, pyMax]
  | cons x t ih =>
    intro b
    by_cases hx : x.2 > b.2
    · have h1 : pyMax b (x :: t) = pyMax x t := by simp [pyMax, hx]
      have hble : b.2 ≤ maxVal (x :: t) :=
        le_trans (le_of_lt hx) (by simp [maxVal])
      have hm : maxVal (b :: x :: t) = maxVal (x :: t) := by
        show max b.2 (maxVal (x :: t)) = maxVal (x :: t)
        exact max_eq_right hble
      have hb : ¬ b.2 = maxVal (x :: t) := by
        have : x.2 ≤ maxVal (x :: t) := by simp [maxVal]
        omega
      rw [h1, hm]
      show firstAttain (maxVal (x :: t)) (b :: x :: t) = some (pyMax x t)
      rw [show firstAttain (maxVal (x :: t)) (b :: x :: t)
            = firstAttain (maxVal (x :: t)) (x :: t) by simp [firstAttain, hb]]
      exact ih x
    · have h1 : pyMax b (x :: t) = pyMax b t := by simp [pyMax, hx]
      have hxb : x.2 ≤ b.2 := Nat.le_of_not_lt hx
      have hm : maxVal (b :: x :: t) = maxVal (b :: t) := by
        show max b.2 (max x.2 (maxVal t)) = max b.2 (maxVal t)
        rw [← max_assoc, max_eq_left hxb]
      rw [h1, hm]
      by_cases hbM : b.2 = maxVal (b :: t)
      · have := ih b
        rw [show firstAttain (maxVal (b :: t)) (b :: t) = some b by
              simp [firstAttain, hbM]] at this
        simp [firstAttain, hbM, this]
      · have hbM' : b.2 < maxVal (b :: t) := by
          have : b.2 ≤ maxVal (b :: t) := by simp [maxVal]
          omega
        have hxM : ¬ x.2 = maxVal (b :: t) := by omega
        have := ih b
        rw [show firstAttain (maxVal (b :: t)) (b :: t)
              = firstAttain (maxVal (b :: t)) t by simp [firstAttain, hbM]] at this
        simp [firstAttain, hbM, hxM, this]

/-- `relaxL` copies a character that is not `'='`. -/
theorem relaxL_cons_ne (c : Char) (s : List Char) (h : ¬ c = '=') :
    relaxL (c :: s) = c :: relaxL s := by
  cases s with
  | nil => simp [relaxL]
  | cons d t =>
    show relaxL (c :: d :: t) = c :: relaxL (d :: t)
    simp only [relaxL]
    rw [if_neg (fun hand => h hand.1)]

/-- `relaxL` leaves a string without `'='` unchanged. -/
theorem relaxL_no_eq : ∀ s : List Char, '=' ∉ s → relaxL s = s := by
  intro s
  induction s with
  | nil => intro _; rfl
  | cons c t ih =>
    intro h
    have hc : ¬ c = '=' := fun hc => h (hc ▸ List.mem_cons_self c t)
    rw [relaxL_cons_ne c t hc, ih (fun hm => h (List.mem_cons_of_mem c hm))]

/-- `relaxL` rewrites an exact pin `a ++ "==" ++ b` (with `'='` occurring
nowhere else) to the lower bound `a ++ ">=" ++ b`. -/
theorem relaxL_pin :
    ∀ a b : List Char, '=' ∉ a → '=' ∉ b →
      relaxL (a ++ '=' :: '=' :: b) = a ++ '>' :: '=' :: b := by
  intro a
  induction a with
  | nil =>
    intro b _ hb
    show relaxL ('=' :: '=' :: b) = '>' :: '=' :: b
    simp [relaxL, relaxL_no_eq b hb]
  | cons c t ih =>
    intro b h hb
    have hc : ¬ c = '=' := fun hc => h (hc ▸ List.mem_cons_self c _)
    show relaxL (c :: (t ++ '=' :: '=' :: b)) = c :: (t ++ '>' :: '=' :: b)
    rw [relaxL_cons_ne c _ hc, ih b (fun hm => h (List.mem_cons_of_mem c hm)) hb]

/-- The marker loop is the first present marker of the row list. -/
theorem firstHit_eq_find (fs : RepoFS) :
    ∀ rows : List (String × String),
      firstHit fs rows
        = (match rows.find? (fun p => fs.rootExists p.1) with
           | some p => p.2
           | none => "unknown") := by
  intro rows
  induction rows with
  | nil => rfl
  | cons r t ih =>
    by_cases h : fs.rootExists r.1
    · simp [firstHit, h, List.find?_cons_of_pos]
    · have h' : fs.rootExists r.1 = false := by simpa using h
      simp [firstHit, h', List.find?_cons_of_neg, ih]

/-- `findSplit` at a string that begins with the pattern splits there. -/
theorem findSplit_req_append (s : List Char) :
    findSplit reqPatL (reqPatL ++ s) = some ([], s) := by
  simp [findSplit, reqPatL, List.isPrefixOf, String.data]

/-- `takeWhile (· != ')')` on `blk ++ ')' :: rest` with `')' ∉ blk` is
`blk`. -/
theorem takeWhile_rparen (blk rest : List Char) (h : ')' ∉ blk) :
    (blk ++ ')' :: rest).takeWhile (fun c => c != ')') = blk := by
  induction blk with
  | nil => simp [List.takeWhile]
  | cons c t ih =>
    have hc : ¬ c = ')' := fun hc => h (hc ▸ List.mem_cons_self c t)
    have := ih (fun hm => h (List.mem_cons_of_mem c hm))
    simp [List.takeWhile_cons, hc, this]

/-! ## Claim C2 — language detection and the missing `unknown` branch -/

/-- C2 counterexample: on an empty tree every language's match count is
zero, yet `_detect_primary_language` returns `"python"` (the
first-declared language, as Python `max` over all-zero counts), not the
claimed sentinel `"unknown"` — the claimed explicit all-zero branch does
not exist in the code. -/
theorem c2_counterexample :
    detect_primary_language emptyFS = "python"
    ∧ (∀ p ∈ langCounts emptyFS, p.2 = 0)
    ∧ ("python" : String) ≠ "unknown" :=
  ⟨rfl, by decide, by decide⟩

/-- C2 (amended): `_detect_primary_language` returns the language whose
match count is highest, ties broken by table order (the first entry of
the counts table attaining the maximum count), and on an all-zero tree it
returns `"python"`, the first-declared language — never `"unknown"`. -/
theorem c2_amended (fs : RepoFS) :
    (firstAttain (maxVal (langCounts fs)) (langCounts fs)).map Prod.fst
      = some (detect_primary_language fs)
    ∧ ((∀ p ∈ langCounts fs, p.2 = 0) → detect_primary_language fs = "python") := by
  have hl : langCounts fs
      = ("python", countLang fs ["*.py", "requirements.txt", "setup.py", "pyproject.toml"])
        :: ("javascript", countLang fs ["*.js", "package.json"])
        :: ("typescript", countLang fs ["*.ts", "tsconfig.json"])
        :: ("java", countLang fs ["*.java", "pom.xml", "build.gradle"])
        :: ("go", countLang fs ["*.go", "go.mod"])
        :: [("rust", countLang fs ["*.rs", "Cargo.toml"])] := rfl
  constructor
  · rw [hl, pyMax_firstAttain]
    rfl
  · intro hz
    rw [hl] at hz
    simp only [List.forall_mem_cons, List.forall_mem_nil, and_true] at hz
    obtain ⟨h1, h2, h3, h4, h5, h6, -⟩ := hz
    show (pyMax ("python", countLang fs ["*.py", "requirements.txt", "setup.py", "pyproject.toml"])
        (("javascript", countLang fs ["*.js", "package.json"])
          :: ("typescript", countLang fs ["*.ts", "tsconfig.json"])
          :: ("java", countLang fs ["*.java", "pom.xml", "build.gradle"])
          :: ("go", countLang fs ["*.go", "go.mod"])
          :: [("rust", countLang fs ["*.rs", "Cargo.toml"])])).1 = "python"
    rw [h1, h2, h3, h4, h5, h6]
    rfl

/-- C2 amended, witnessed on the empty tree: the first-maximal
characterisation holds and the all-zero case yields `"python"`. -/
theorem c2_amended_witness :
    (firstAttain (maxVal (langCounts emptyFS)) (langCounts emptyFS)).map Prod.fst
      = some (detect_primary_language emptyFS)
    ∧ detect_primary_language emptyFS = "python" :=
  ⟨(c2_amended emptyFS).1, (c2_amended emptyFS).2 (by decide)⟩

/-! ## Claim C3 — dependency analysis isolates parse/read failures -/

/-- C3: whenever the registered analyzer's body raises (any read or parse
failure), `_analyze_dependencies` still returns, and returns the empty
dependency list: the failure never propagates past the analyzer's
boundary. -/
theorem c3_analyzer_error_isolated :
    ∀ (fs : RepoFS) (lang : String) (e : String),
      analyzeBodyOpt fs lang = some (.error e) →
      analyze_dependencies fs lang = some [] := by
  intro fs lang e h
  unfold analyzeBodyOpt at h
  unfold analyze_dependencies analyze_python_dependencies analyze_javascript_dependencies
    analyze_go_dependencies analyze_rust_dependencies
  split_ifs at h ⊢ <;> simp_all [catchAll]

/-- C3 witnessed on a checkout whose `package.json` is truncated, so
`json.load` raises: the JavaScript analyzer returns the empty list. -/
theorem c3_witness :
    analyzeBodyOpt badJsonRepo "javascript"
      = some (.error "Expecting value: line 1 column 25")
    ∧ analyze_dependencies badJsonRepo "javascript" = some [] :=
  ⟨rfl, c3_analyzer_error_isolated badJsonRepo "javascript"
          "Expecting value: line 1 column 25" rfl⟩

/-! ## Claim C4 — retry synthesis relaxes pins and drops tests -/

/-- C4: every `BuildInstructions` produced by `_modify_build_instructions`
has an empty `test_commands` list and carries the re-analyzed dependency
list with every `==` rewritten to `>=` (Python `str.replace`); in
particular `"requests==2.0"` becomes `"requests>=2.0"`, and in general a
descriptor `a ++ "==" ++ b` (with `=` nowhere else) becomes
`a ++ ">=" ++ b`. -/
theorem c4_relaxed_retry_instructions :
    ∀ (fs : RepoFS) (instr : BuildInstructions),
      modify_build_instructions fs = .ok instr →
      instr.test_commands = []
      ∧ instr.dependencies
          = ((analyze_dependencies fs (detect_primary_language fs)).getD []).map relaxDep
      ∧ relaxDep "requests==2.0" = "requests>=2.0"
      ∧ (∀ a b : List Char, '=' ∉ a → '=' ∉ b →
          relaxL (a ++ '=' :: '=' :: b) = a ++ '>' :: '=' :: b) := by
  intro fs instr h
  unfold modify_build_instructions at h
  cases hd : analyze_dependencies fs (detect_primary_language fs) with
  | none => rw [hd] at h; exact absurd h (by simp)
  | some deps =>
    rw [hd] at h
    injection h with h'
    subst h'
    exact ⟨rfl, by simp, by decide, relaxL_pin⟩

/-- C4 witnessed end to end on `pyRepo`: the synthesized retry
instructions relax `requests==2.0` to `requests>=2.0` and carry no test
commands. -/
theorem c4_witness :
    modify_build_instructions pyRepo = .ok instrRelaxed
    ∧ instrRelaxed.test_commands = []
    ∧ instrRelaxed.dependencies
        = ((analyze_dependencies pyRepo (detect_primary_language pyRepo)).getD []).map relaxDep
    ∧ relaxDep "requests==2.0" = "requests>=2.0"
    ∧ relaxL ("requests".data ++ '=' :: '=' :: "2.0".data)
        = "requests".data ++ '>' :: '=' :: "2.0".data :=
  have h : modify_build_instructions pyRepo = .ok instrRelaxed := rfl
  have c := c4_relaxed_retry_instructions pyRepo instrRelaxed h
  ⟨h, c.1, c.2.1, c.2.2.1, c.2.2.2 "requests".data "2.0".data (by decide) (by decide)⟩

/-! ## Claim C7 — build-system detection -/

/-- C7: `_detect_build_system` returns the build-system name of the first
marker file (in the fixed table order for the language) present at the
repository root — exactly the spec-side `buildSystemSpec` — and returns
`"unknown"` when the language is `"unknown"` (it has no table row) or
when none of the language's markers is present. -/
theorem c7_build_system_detection :
    (∀ (fs : RepoFS) (lang : String),
        detect_build_system fs lang = buildSystemSpec fs lang)
    ∧ (∀ fs : RepoFS, detect_build_system fs "unknown" = "unknown")
    ∧ (∀ (fs : RepoFS) (lang : String) (rows : List (String × String)),
        assocLookup lang build_systems = some rows →
        (∀ p ∈ rows, fs.rootExists p.1 = false) →
        detect_build_system fs lang = "unknown") := by
  refine ⟨?_, ?_, ?_⟩
  · intro fs lang
    unfold detect_build_system buildSystemSpec
    cases assocLookup lang build_systems with
    | none => rfl
    | some rows => exact firstHit_eq_find fs rows
  · intro fs
    rfl
  · intro fs lang rows hrows hnone
    have hfind : rows.find? (fun p => fs.rootExists p.1) = none :=
      List.find?_eq_none.mpr (fun p hp => by simp [hnone p hp])
    unfold detect_build_system
    rw [hrows]
    show firstHit fs rows = "unknown"
    rw [firstHit_eq_find, hfind]

/-- C7 witnessed: a Python-language checkout with none of the three
Python markers present detects build system `"unknown"`. -/
theorem c7_witness :
    detect_build_system emptyFS "python" = "unknown" :=
  c7_build_system_detection.2.2 emptyFS "python"
    [("setup.py", "setuptools"), ("pyproject.toml", "poetry"), ("requirements.txt", "pip")]
    rfl (by decide)

/-! ## Claim C8 — the Go scenario and `require ( ... )` extraction -/

/-- C8: on a checkout holding only `go.mod` and `main.go`, with the given
`require ( ... )` block, the pipeline detects language `"go"`, build
system `"go"` and the dependency list `["github.com/x/y v1.0.0"]`; only
the FIRST `require (` block is read (a second block is ignored); and in
general the extraction returns exactly the stripped non-blank lines of
the region between the block opener and the first `')'`. -/
theorem c8_go_scenario :
    detect_primary_language goRepo = "go"
    ∧ detect_build_system goRepo "go" = "go"
    ∧ analyze_dependencies goRepo "go" = some ["github.com/x/y v1.0.0"]
    ∧ goDepsOfContent "require (\n\ta\n)\nrequire (\n\tb\n)" = ["a"]
    ∧ (∀ blk rest : List Char, ')' ∉ blk →
        findSplit reqPatL (blk ++ ')' :: rest) = none →
        goDepsOfContent ⟨reqPatL ++ (blk ++ ')' :: rest)⟩
          = (((pySplitlines blk).map pyStrip).filter (fun l => l ≠ [])).map
              (fun l => (⟨l⟩ : String))) := by
  refine ⟨rfl, rfl, rfl, rfl, ?_⟩
  intro blk rest hb h2
  unfold goDepsOfContent
  rw [show (⟨reqPatL ++ (blk ++ ')' :: rest)⟩ : String).data
        = reqPatL ++ (blk ++ ')' :: rest) from rfl]
  simp only [findSplit_req_append]
  unfold goSegment
  simp only [h2]
  rw [takeWhile_rparen blk rest hb]
  rfl

/-- C8 witnessed: the general extraction conjunct evaluated on a concrete
block body. -/
theorem c8_witness :
    (')' ∉ "\n\tgithub.com/a/b v2.1.0\n\tgithub.com/c/d v0.3.0\n".data)
    ∧ goDepsOfContent ⟨reqPatL ++ ("\n\tgithub.com/a/b v2.1.0\n\tgithub.com/c/d v0.3.0\n".data
        ++ ')' :: "\n".data)⟩
      = (((pySplitlines "\n\tgithub.com/a/b v2.1.0\n\tgithub.com/c/d v0.3.0\n".data).map
          pyStrip).filter (fun l => l ≠ [])).map (fun l => (⟨l⟩ : String)) :=
  ⟨by decide,
   c8_go_scenario.2.2.2.2 "\n\tgithub.com/a/b v2.1.0\n\tgithub.com/c/d v0.3.0\n".data
     "\n".data (by decide) (by decide)⟩

/-! ## Claim C10 — no dependency analyzer for TypeScript -/

/-- C10: `_analyze_dependencies` for language `"typescript"` returns the
empty list for every checkout — no analyzer is registered for it — even
when a `package.json` with declared dependencies is present (the same
checkout analyzed as `"javascript"` yields two dependencies). -/
theorem c10_typescript_no_dependencies :
    (∀ fs : RepoFS, analyze_dependencies fs "typescript" = some [])
    ∧ analyze_dependencies jsRepo "typescript" = some []
    ∧ analyze_dependencies jsRepo "javascript"
        = some ["left-pad@1.0.0", "jest@29.0.0"] :=
  ⟨fun _ => rfl, rfl, rfl⟩

/-! ## Claim C6 — unsupported language fails immediately and terminally -/

/-- C6: for instructions whose lowercased language has no entry in
`build_handlers`, `execute_build` raises the `Unsupported language`
`BuildError` (which its `except` clause, catching only
`CalledProcessError`, lets propagate): the state is returned completely
unchanged — no process spawned, no environment flag touched, zero
execution attempts — and the failure-recovery cycle is never entered
(entering it would have converted the error into a returned `False`). -/
theorem c6_unsupported_language :
    ∀ (w : World) (fs : RepoFS) (instr : BuildInstructions) (s : St) (fuel : Nat),
      pyLower instr.language ∉ ["python", "javascript", "typescript", "java", "go", "rust"] →
      execute_build w fs build_handlers (fuel + 1) instr s
        = (.error (.buildError ("Unsupported language: " ++ instr.language)), s) := by
  intro w fs instr s fuel h
  simp only [List.mem_cons, List.not_mem_nil, or_false, not_or] at h
  obtain ⟨h1, h2, h3, h4, h5, h6⟩ := h
  have hsetup : setup_environment w instr s = (none, s) := by
    unfold setup_environment
    rw [if_neg h1, if_neg (not_or.mpr ⟨h2, h3⟩)]
  have hreg : build_handlers (pyLower instr.language) = none := by
    unfold build_handlers
    rw [if_neg h1, if_neg h2, if_neg h3, if_neg h4, if_neg h5, if_neg h6]
  unfold execute_build
  simp only [hsetup, hreg]

/-- C6 witnessed: a `Ruby` build fails terminally with the unsupported
signal, leaving the pristine state untouched. -/
theorem c6_witness :
    execute_build wAllOk emptyFS build_handlers 3 instrRuby st0
      = (.error (.buildError ("Unsupported language: " ++ "Ruby")), st0) :=
  c6_unsupported_language wAllOk emptyFS instrRuby st0 2 (by decide)

/-! ## Claim C9 — environment creation is NOT created-at-most-once -/

/-- C9 counterexample: a first Python build on a fresh checkout spawns
the venv-creation command TWICE (once in `_setup_environment`, which does
check for existence, and once unconditionally in `_handle_python_build`),
and a second build run — with `.venv` already present — spawns it AGAIN:
the second run does not skip creation, refuting "running a build twice
creates it at most once and a second run skips creation". -/
theorem c9_counterexample :
    (execute_build wAllOk emptyFS build_handlers 3 instrPy st0).2.spawned
      = [Cmd.pythonVenv, Cmd.pythonVenv, Cmd.pip "install -r requirements.txt"]
    ∧ (execute_build wAllOk emptyFS build_handlers 3 instrPy
         (execute_build wAllOk emptyFS build_handlers 3 instrPy st0).2).2.spawned
      = [Cmd.pythonVenv, Cmd.pythonVenv, Cmd.pip "install -r requirements.txt",
         Cmd.pythonVenv, Cmd.pip "install -r requirements.txt"] :=
  ⟨rfl, rfl⟩

/-- C9 (amended): the preparation step `_setup_environment` alone is
idempotent for Python — with `.venv` present it spawns nothing and
returns the state unchanged, and with `.venv` absent a successful
creation spawns exactly one venv command after which a second preparation
skips creation; the build handler, however, re-runs creation on every
build (see the counterexample), so the full run is not idempotent. -/
theorem c9_amended :
    ∀ (w : World) (instr : BuildInstructions) (s : St),
      pyLower instr.language = "python" →
      (s.venv = true → setup_environment w instr s = (none, s))
      ∧ (s.venv = false → w.procOk s.spawned.length = true →
          (setup_environment w instr s).2.venv = true
          ∧ (setup_environment w instr s).2.spawned = s.spawned ++ [Cmd.pythonVenv]
          ∧ setup_environment w instr (setup_environment w instr s).2
              = (none, (setup_environment w instr s).2)) := by
  intro w instr s hlang
  constructor
  · intro hv
    unfold setup_environment
    rw [if_pos hlang, if_pos hv]
  · intro hv hok
    have hs : setup_environment w instr s
        = (none, { venv := true, nodeModules := s.nodeModules,
                   spawned := s.spawned ++ [Cmd.pythonVenv], attempts := s.attempts }) := by
      unfold setup_environment spawn
      rw [if_pos hlang, if_neg (by simp [hv])]
      simp [hok, isVenvCmd, isNpmInstallCmd]
    refine ⟨by rw [hs], by rw [hs], ?_⟩
    rw [hs]
    unfold setup_environment
    rw [if_pos hlang]
    rfl

/-- C9 amended, witnessed: with `.venv` present preparation is a no-op;
with it absent, one successful creation is spawned and the following
preparation skips. -/
theorem c9_amended_witness :
    setup_environment wAllOk instrPy { venv := true, nodeModules := false, spawned := [], attempts := 0 }
      = (none, { venv := true, nodeModules := false, spawned := [], attempts := 0 })
    ∧ (setup_environment wAllOk instrPy st0).2.venv = true
    ∧ (setup_environment wAllOk instrPy st0).2.spawned = [Cmd.pythonVenv]
    ∧ setup_environment wAllOk instrPy (setup_environment wAllOk instrPy st0).2
        = (none, (setup_environment wAllOk instrPy st0).2) :=
  have h1 := (c9_amended wAllOk instrPy
    { venv := true, nodeModules := false, spawned := [], attempts := 0 } (by decide)).1 rfl
  have h2 := (c9_amended wAllOk instrPy st0 (by decide)).2 rfl rfl
  ⟨h1, h2.1, h2.2.1, h2.2.2⟩

/-! ## Claim C5 — what the terminal result after a failed retry carries -/

/-- C5 counterexample: two pipelines whose first attempts fail with
DIFFERENT commands and exit statuses (a pip install exiting 1 versus an
npm install exiting 137), and whose single retry then fails, return
IDENTICAL results — the bare `False` — so the value returned to the
caller carries neither the original nor the retry failure reason, no
failed command, no exit status, and no retried flag; no `BuildOutcome`
record exists in the code. -/
theorem c5_counterexample :
    execute_build wAllOk pyRepo (failThenFalse ⟨"pip install -r requirements.txt", 1⟩)
        5 instrPy st0
      = execute_build wAllOk pyRepo (failThenFalse ⟨"npm install", 137⟩) 5 instrPy st0
    ∧ (execute_build wAllOk pyRepo (failThenFalse ⟨"pip install -r requirements.txt", 1⟩)
        5 instrPy st0).1 = .ok (.pyBool false)
    ∧ (⟨"pip install -r requirements.txt", 1⟩ : CPE) ≠ (⟨"npm install", 137⟩ : CPE) :=
  ⟨rfl, rfl, by decide⟩

/-- C5 (amended): after the single retry fails, `execute_build` returns
the bare Python value `False` — the same value whatever
`CalledProcessError` the original attempt raised — carrying no failure
reasons, no failed command, no exit status and no retried flag. -/
theorem c5_amended :
    ∀ e1 e2 : CPE,
      execute_build wAllOk pyRepo (failThenFalse e1) 5 instrPy st0
        = (.ok (.pyBool false),
           { venv := true, nodeModules := false, spawned := [Cmd.pythonVenv], attempts := 2 })
      ∧ execute_build wAllOk pyRepo (failThenFalse e1) 5 instrPy st0
        = execute_build wAllOk pyRepo (failThenFalse e2) 5 instrPy st0 :=
  fun _ _ => ⟨rfl, rfl⟩

/-! ## Claim C1 — the retry cycle re-enters itself without bound -/

/-- C1: with a stub executor that always reports failure by raising
`CalledProcessError` (the spec's "BuildExecutor stub that always reports
Failure"), the number of execution attempts equals the permitted
recursion depth — 5 attempts at depth 5, 9 at depth 9 — because
`_handle_build_failure` re-enters `execute_build`, whose failure path
re-enters `_handle_build_failure`: the code performs one attempt per
consecutive failure without any bound, not the claimed maximum of two. -/
theorem c1_unbounded_reentry :
    (execute_build wAllOk pyRepo alwaysFailReg 5 instrPy st0).2.attempts = 5
    ∧ (execute_build wAllOk pyRepo alwaysFailReg 9 instrPy st0).2.attempts = 9 :=
  ⟨rfl, rfl⟩
